import Mathlib

/-!
# Windows runner entry point (`windows/runner/main.cpp`)

A shallow embedding of `wWinMain`.  Every call that leaves `main.cpp`
(Win32 API, COM, the Flutter embedding, `utils.h`, `flutter_window.h`) is
answered by an `Oracle`; the run is the list of calls made, in order, with
their arguments, together with the exit code when the function returns.

The message loop need not end, so `wWinMain` takes a fuel bound on the
number of `GetMessage` calls; a run that has not returned yet has
`exit = none` and its trace is the calls made so far.
-/

namespace Runner

/-! ## Constants of the C runtime and the Windows SDK used by `main.cpp` -/

/-- Value of `EXIT_SUCCESS` in `<stdlib.h>`. -/
def EXIT_SUCCESS : Int := 0

/-- Value of `EXIT_FAILURE` in `<stdlib.h>`. -/
def EXIT_FAILURE : Int := 1

/-- Value of `ATTACH_PARENT_PROCESS`, that is `(DWORD)-1`. -/
def ATTACH_PARENT_PROCESS : Nat := 4294967295

/-- Value of `COINIT_APARTMENTTHREADED`. -/
def COINIT_APARTMENTTHREADED : Nat := 2

/-- Index `SM_CXSCREEN` of `GetSystemMetrics`. -/
def SM_CXSCREEN : Int := 0

/-- Index `SM_CYSCREEN` of `GetSystemMetrics`. -/
def SM_CYSCREEN : Int := 1

/-- Index `GCLP_HICON` of `SetClassLongPtr`. -/
def GCLP_HICON : Int := -14

/-- Image type `IMAGE_ICON` of `LoadImage`. -/
def IMAGE_ICON : Nat := 1

/-- Flag `LR_DEFAULTSIZE` of `LoadImage`. -/
def LR_DEFAULTSIZE : Nat := 0x40

/-- Flag `LR_SHARED` of `LoadImage`. -/
def LR_SHARED : Nat := 0x8000

/-- Smallest value of a 32-bit `int`. -/
def INT_MIN : Int := -2147483648

/-- Largest value of a 32-bit `int`. -/
def INT_MAX : Int := 2147483647

/-- Reduction of a mathematical integer to the 32-bit two's complement
range, the value an `int` computation yields when it leaves the range. -/
def wrapInt32 (z : Int) : Int := (z + 2147483648) % 4294967296 - 2147483648

/-! ## Data -/

/-- Arguments given to the constructor `Win32Window::Point origin(x, y)`
(main.cpp lines 28-30).  The class is declared in `win32_window.h`; the
fields hold the values of the two `int` argument expressions. -/
structure Point where
  x : Int
  y : Int
  deriving DecidableEq, Repr

/-- Arguments given to the constructor `Win32Window::Size size(w, h)`
(main.cpp line 31). -/
structure Size where
  width : Int
  height : Int
  deriving DecidableEq, Repr

/-- Contents of the `::MSG msg` buffer of the message loop (the fields
`time` and `pt` of the Win32 structure are left out; `wWinMain` reads no
field). -/
structure MSG where
  hwnd : Nat
  message : Nat
  wParam : Nat
  lParam : Int
  deriving DecidableEq, Repr

/-- One call made by `wWinMain`, with its arguments.  Handles and pointers
are natural numbers, `0` being the null handle. -/
inductive Event where
  | AttachConsole (dwProcessId : Nat)
  | IsDebuggerPresent
  | CreateAndAttachConsole
  | CoInitializeEx (pvReserved : Nat) (dwCoInit : Nat)
  | DartProject (path : String)
  | GetCommandLineArguments
  | set_dart_entrypoint_arguments (args : List String)
  | FlutterWindow
  | GetSystemMetrics (nIndex : Int)
  | Create (title : String) (origin : Point) (size : Size)
  | SetMinimumSize (width : Int) (height : Int)
  | GetModuleHandle (lpModuleName : Nat)
  | LoadImage (hInst : Nat) (name : Nat) (uType : Nat) (cx : Int) (cy : Int) (fuLoad : Nat)
  | GetHandle
  | SetClassLongPtr (hWnd : Nat) (nIndex : Int) (dwNewLong : Nat)
  | SetQuitOnClose (quit_on_close : Bool)
  | GetMessage (hWnd : Nat) (wMsgFilterMin : Nat) (wMsgFilterMax : Nat)
  | TranslateMessage (msg : MSG)
  | DispatchMessage (msg : MSG)
  | CoUninitialize
  | FlutterWindowDtor
  | DartProjectDtor
  deriving DecidableEq, Repr

/-- Answers of the environment to the calls of `wWinMain`.  `BOOL` results
are integers (zero is false).  `GetMessage i` is the result of the call
number `i` (from 0) and the contents of the message buffer after it. -/
structure Oracle where
  AttachConsole : Int
  IsDebuggerPresent : Int
  GetCommandLineArguments : List String
  GetSystemMetrics : Int → Int
  Create : Bool
  GetModuleHandle : Nat
  LoadImage : Nat
  GetHandle : Nat
  GetMessage : Nat → Int × MSG

/-- Outcome of a run: the calls made so far and, once `wWinMain` has
returned, its return value. -/
structure Run where
  trace : List Event
  exit : Option Int
  deriving DecidableEq, Repr

/-! ## The program -/

/-- Window title of main.cpp line 32. -/
def windowTitle : String := "Flashcards – Gestionnaire de cartes mémoire"

/-- Lines 12-14: `if (!::AttachConsole(ATTACH_PARENT_PROCESS) &&
::IsDebuggerPresent()) { CreateAndAttachConsole(); }`, with the short
circuit of `&&`. -/
def attachConsole (o : Oracle) : List Event :=
  Event.AttachConsole ATTACH_PARENT_PROCESS ::
    (if o.AttachConsole = 0 then
      Event.IsDebuggerPresent ::
        (if o.IsDebuggerPresent ≠ 0 then [Event.CreateAndAttachConsole] else [])
    else [])

/-- Lines 28-30: the origin arguments
`(GetSystemMetrics(SM_CXSCREEN) - 1280) / 2` and
`(GetSystemMetrics(SM_CYSCREEN) - 720) / 2`, in `int` arithmetic: `/` is
`Int.tdiv` (truncation toward zero). -/
def windowOrigin (screenWidth screenHeight : Int) : Point :=
  { x := Int.tdiv (wrapInt32 (screenWidth - 1280)) 2,
    y := Int.tdiv (wrapInt32 (screenHeight - 720)) 2 }

/-- Line 31: `Win32Window::Size size(1280, 720)`. -/
def windowSize : Size := { width := 1280, height := 720 }

/-- Lines 18-32: from `CoInitializeEx` up to and including the call of
`window.Create`.  The two `GetSystemMetrics` calls are listed in source
order; C++ leaves the order of evaluation of the two constructor arguments
open, and no statement below depends on it. -/
def startup (o : Oracle) : List Event :=
  [ Event.CoInitializeEx 0 COINIT_APARTMENTTHREADED,
    Event.DartProject "data",
    Event.GetCommandLineArguments,
    Event.set_dart_entrypoint_arguments o.GetCommandLineArguments,
    Event.FlutterWindow,
    Event.GetSystemMetrics SM_CXSCREEN,
    Event.GetSystemMetrics SM_CYSCREEN,
    Event.Create windowTitle
      (windowOrigin (o.GetSystemMetrics SM_CXSCREEN) (o.GetSystemMetrics SM_CYSCREEN))
      windowSize ]

/-- Lines 36-46: minimum size, icon, quit-on-close. -/
def configureWindow (o : Oracle) : List Event :=
  [ Event.SetMinimumSize 800 500,
    Event.GetModuleHandle 0,
    Event.LoadImage o.GetModuleHandle 101 IMAGE_ICON 0 0 (LR_DEFAULTSIZE ||| LR_SHARED) ] ++
  (if o.LoadImage ≠ 0 then
    [Event.GetHandle, Event.SetClassLongPtr o.GetHandle GCLP_HICON o.LoadImage]
  else []) ++
  [ Event.SetQuitOnClose true ]

/-- Lines 49-52: `while (::GetMessage(&msg, nullptr, 0, 0)) {
::TranslateMessage(&msg); ::DispatchMessage(&msg); }`.  `messageLoop o fuel i`
runs the loop from the `GetMessage` call number `i` for at most `fuel`
calls; the Boolean tells whether the loop was left. -/
def messageLoop (o : Oracle) : Nat → Nat → List Event × Bool
  | 0, _ => ([], false)
  | fuel + 1, i =>
    if (o.GetMessage i).1 ≠ 0 then
      let rest := messageLoop o fuel (i + 1)
      (Event.GetMessage 0 0 0 :: Event.TranslateMessage (o.GetMessage i).2 ::
        Event.DispatchMessage (o.GetMessage i).2 :: rest.1, rest.2)
    else
      ([Event.GetMessage 0 0 0], true)

/-- Destruction of the automatic objects `window` and `project` when
`wWinMain` returns (lines 33 and 55), in reverse order of construction. -/
def scopeExit : List Event := [Event.FlutterWindowDtor, Event.DartProjectDtor]

/-- The function `wWinMain` of main.cpp, lines 8-56. -/
def wWinMain (o : Oracle) (fuel : Nat) : Run :=
  let t0 := attachConsole o ++ startup o
  if !o.Create then
    { trace := t0 ++ scopeExit, exit := some EXIT_FAILURE }
  else
    let t1 := t0 ++ configureWindow o
    match messageLoop o fuel 0 with
    | (loop, true) =>
      { trace := t1 ++ loop ++ ( Event.CoUninitialize :: scopeExit), exit := some EXIT_SUCCESS }
    | (loop, false) =>
      { trace := t1 ++ loop, exit := none }


/-! ## Classes of calls -/

/-- Message-pump calls: `GetMessage`, `TranslateMessage`, `DispatchMessage`. -/
def Event.isPump : Event → Bool
  | .GetMessage _ _ _ => true
  | .TranslateMessage _ => true
  | .DispatchMessage _ => true
  | _ => false

/-- Calls that configure the created window: `SetMinimumSize`,
`SetClassLongPtr`, `SetQuitOnClose`. -/
def Event.isWindowConfig : Event → Bool
  | .SetMinimumSize _ _ => true
  | .SetClassLongPtr _ _ _ => true
  | .SetQuitOnClose _ => true
  | _ => false

/-- Calls of one round of the loop on the message `m`, lines 49-51. -/
def pumpRound (m : MSG) : List Event :=
  [Event.GetMessage 0 0 0, Event.TranslateMessage m, Event.DispatchMessage m]


/-- The call `window.Create(...)`, whatever its arguments. -/
def Event.isCreate : Event → Bool
  | .Create _ _ _ => true
  | _ => false

/-- The call `GetMessage`, whatever its arguments. -/
def Event.isGetMessage : Event → Bool
  | .GetMessage _ _ _ => true
  | _ => false

/-- The call `CoInitializeEx`, whatever its arguments. -/
def Event.isComInit : Event → Bool
  | .CoInitializeEx _ _ => true
  | _ => false

/-- Calls made by lines 18-32 (`startup`). -/
def Event.isStartup : Event → Bool
  | .CoInitializeEx _ _ => true
  | .DartProject _ => true
  | .GetCommandLineArguments => true
  | .set_dart_entrypoint_arguments _ => true
  | .FlutterWindow => true
  | .GetSystemMetrics _ => true
  | .Create _ _ _ => true
  | _ => false

/-- The token sequence handed over by a call of
`set_dart_entrypoint_arguments`, and `none` for every other call. -/
def Event.entrypointArgs : Event → Option (List String)
  | .set_dart_entrypoint_arguments args => some args
  | _ => none

/-- Calls kept in the sub-trace that console, debugger and icon answers
must not influence: `window.Create`, `SetMinimumSize`, `SetQuitOnClose`,
the message pump and the COM calls. -/
def Event.isEssential : Event → Bool
  | .Create _ _ _ => true
  | .SetMinimumSize _ _ => true
  | .SetQuitOnClose _ => true
  | .GetMessage _ _ _ => true
  | .TranslateMessage _ => true
  | .DispatchMessage _ => true
  | .CoInitializeEx _ _ => true
  | Event.CoUninitialize => true
  | _ => false

/-- Part of a run that follows `startup`: everything from line 33 on. -/
def afterCreate (o : Oracle) (fuel : Nat) : List Event :=
  if !o.Create then scopeExit
  else
    match messageLoop o fuel 0 with
    | (loop, true) => configureWindow o ++ loop ++ ( Event.CoUninitialize :: scopeExit)
    | (loop, false) => configureWindow o ++ loop

/-- Sample message `WM_PAINT` (0x000F) for window 9. -/
def paintMsg : MSG := { hwnd := 9, message := 15, wParam := 0, lParam := 0 }

/-- Sample message `WM_QUIT` (0x0012). -/
def quitMsg : MSG := { hwnd := 0, message := 18, wParam := 0, lParam := 0 }

/-- Sample environment: a 1920x1080 display, no parent console, no debugger,
window creation succeeds, the icon resource is missing, and `GetMessage`
answers 1, then -1 (error), then 0 (quit). -/
def sampleOracle : Oracle :=
  { AttachConsole := 0
    IsDebuggerPresent := 0
    GetCommandLineArguments := ["--verbose", "deck.json"]
    GetSystemMetrics := fun i => if i = SM_CXSCREEN then 1920 else 1080
    Create := true
    GetModuleHandle := 4194304
    LoadImage := 0
    GetHandle := 9
    GetMessage := fun i =>
      if i = 0 then (1, paintMsg) else if i = 1 then (-1, paintMsg) else (0, quitMsg) }

/-- Sample environment in which `window.Create` fails, on an 801x601
display (smaller than the window). -/
def failingOracle : Oracle :=
  { sampleOracle with
    Create := false
    GetSystemMetrics := fun i => if i = SM_CXSCREEN then 801 else 601 }

/-- Window-configuration calls lines 36-46 must make, in order, given the
icon handle `icon` returned by `LoadImage` and the window handle `hwnd`. -/
def expectedConfig (hwnd icon : Nat) : List Event :=
  [Event.SetMinimumSize 800 500] ++
  (if icon ≠ 0 then [Event.SetClassLongPtr hwnd GCLP_HICON icon] else []) ++
  [Event.SetQuitOnClose true]

/-- Sample environment equal to `sampleOracle` for window creation, display
and messages, with a parent console, a debugger and an icon present. -/
def iconOracle : Oracle :=
  { sampleOracle with
    AttachConsole := 1
    IsDebuggerPresent := 1
    GetCommandLineArguments := []
    GetModuleHandle := 1
    LoadImage := 77
    GetHandle := 12 }
/-! ## Lemmas on the message loop -/

theorem messageLoop_isPump (o : Oracle) (fuel i : Nat) :
    ∀ e ∈ (messageLoop o fuel i).1, e.isPump = true := by
  induction fuel generalizing i with
  | zero => simp [messageLoop]
  | succ f ih =>
    intro e he
    unfold messageLoop at he
    split at he
    · simp only [List.mem_cons] at he
      rcases he with rfl | rfl | rfl | he
      · rfl
      · rfl
      · rfl
      · exact ih _ e he
    · simp only [List.mem_singleton] at he
      subst he; rfl

theorem messageLoop_done (o : Oracle) (n : Nat) :
    ∀ i fuel, (o.GetMessage (i + n)).1 = 0 → n < fuel → (messageLoop o fuel i).2 = true := by
  induction n with
  | zero =>
    intro i fuel hz hf
    obtain ⟨f, rfl⟩ : ∃ f, fuel = f + 1 := ⟨fuel - 1, by omega⟩
    simp only [Nat.add_zero] at hz
    simp [messageLoop, hz]
  | succ n ih =>
    intro i fuel hz hf
    obtain ⟨f, rfl⟩ : ∃ f, fuel = f + 1 := ⟨fuel - 1, by omega⟩
    unfold messageLoop
    split
    · exact ih (i + 1) f (by rw [show i + 1 + n = i + (n + 1) by omega]; exact hz) (by omega)
    · rfl

theorem messageLoop_done_last (o : Oracle) (fuel : Nat) :
    ∀ i, (messageLoop o fuel i).2 = true →
      ∃ l, (messageLoop o fuel i).1 = l ++ [Event.GetMessage 0 0 0] := by
  induction fuel with
  | zero => intro i h; simp [messageLoop] at h
  | succ f ih =>
    intro i h
    unfold messageLoop at h ⊢
    split
    · rename_i hr
      rw [if_pos hr] at h
      obtain ⟨l, hl⟩ := ih (i + 1) h
      exact ⟨Event.GetMessage 0 0 0 :: Event.TranslateMessage (o.GetMessage i).2 ::
        Event.DispatchMessage (o.GetMessage i).2 :: l, by simp [hl]⟩
    · exact ⟨[], rfl⟩

theorem messageLoop_exact (o : Oracle) (n : Nat) :
    ∀ i fuel, (∀ j, j < n → (o.GetMessage (i + j)).1 ≠ 0) → (o.GetMessage (i + n)).1 = 0 →
      n < fuel →
      messageLoop o fuel i =
        ((List.range' i n).flatMap (fun k => pumpRound (o.GetMessage k).2) ++
          [Event.GetMessage 0 0 0], true) := by
  induction n with
  | zero =>
    intro i fuel _ hz hf
    obtain ⟨f, rfl⟩ : ∃ f, fuel = f + 1 := ⟨fuel - 1, by omega⟩
    simp only [Nat.add_zero] at hz
    simp [messageLoop, hz]
  | succ n ih =>
    intro i fuel hnz hz hf
    obtain ⟨f, rfl⟩ : ∃ f, fuel = f + 1 := ⟨fuel - 1, by omega⟩
    have h0 : (o.GetMessage i).1 ≠ 0 := by simpa using hnz 0 (by omega)
    have hrec := ih (i + 1) f
      (fun j hj => by rw [show i + 1 + j = i + (j + 1) by omega]; exact hnz (j + 1) (by omega))
      (by rw [show i + 1 + n = i + (n + 1) by omega]; exact hz) (by omega)
    unfold messageLoop
    rw [if_pos h0]
    simp only [hrec, List.range'_succ, List.flatMap_cons, pumpRound, List.cons_append,
      List.nil_append]

theorem messageLoop_running (o : Oracle) (fuel : Nat) :
    ∀ i, (∀ j, j < fuel → (o.GetMessage (i + j)).1 ≠ 0) →
      messageLoop o fuel i =
        ((List.range' i fuel).flatMap (fun k => pumpRound (o.GetMessage k).2), false) := by
  induction fuel with
  | zero => intro i _; simp [messageLoop]
  | succ f ih =>
    intro i hnz
    have h0 : (o.GetMessage i).1 ≠ 0 := by simpa using hnz 0 (by omega)
    have hrec := ih (i + 1)
      (fun j hj => by rw [show i + 1 + j = i + (j + 1) by omega]; exact hnz (j + 1) (by omega))
    unfold messageLoop
    rw [if_pos h0]
    simp only [hrec, List.range'_succ, List.flatMap_cons, pumpRound, List.cons_append,
      List.nil_append]

theorem attachConsole_not_pump (o : Oracle) :
    ∀ e ∈ attachConsole o, e.isPump = false ∧ e.isWindowConfig = false := by
  unfold attachConsole
  split_ifs <;> simp [Event.isPump, Event.isWindowConfig]


/-! ## Shape of a run -/

theorem wWinMain_trace (o : Oracle) (fuel : Nat) :
    (wWinMain o fuel).trace = attachConsole o ++ startup o ++ afterCreate o fuel := by
  unfold wWinMain afterCreate
  cases o.Create
  · simp
  · simp only [Bool.not_true, Bool.false_eq_true, if_false]
    rcases messageLoop o fuel 0 with ⟨loop, _ | _⟩ <;> simp [List.append_assoc]

theorem wWinMain_create_false (o : Oracle) (fuel : Nat) (h : o.Create = false) :
    wWinMain o fuel =
      { trace := attachConsole o ++ startup o ++ scopeExit, exit := some EXIT_FAILURE } := by
  simp [wWinMain, h]

theorem wWinMain_loop_done (o : Oracle) (fuel : Nat) (h : o.Create = true)
    (hd : (messageLoop o fuel 0).2 = true) :
    wWinMain o fuel =
      { trace := attachConsole o ++ startup o ++ configureWindow o ++ (messageLoop o fuel 0).1 ++
          ( Event.CoUninitialize :: scopeExit),
        exit := some EXIT_SUCCESS } := by
  unfold wWinMain
  simp only [h, Bool.not_true, Bool.false_eq_true, if_false]
  rcases hm : messageLoop o fuel 0 with ⟨loop, _ | _⟩
  · rw [hm] at hd; simp at hd
  · rfl

theorem attachConsole_not_startup (o : Oracle) :
    ∀ e ∈ attachConsole o, e.isStartup = false := by
  unfold attachConsole
  split_ifs <;> simp [Event.isStartup]

theorem configureWindow_not_startup (o : Oracle) :
    ∀ e ∈ configureWindow o, e.isStartup = false ∧ e.isPump = false := by
  unfold configureWindow
  split_ifs <;> simp [Event.isStartup, Event.isPump]

theorem isPump_not_startup (e : Event) (h : e.isPump = true) :
    e.isStartup = false ∧ e.isWindowConfig = false ∧ e ≠ Event.CoUninitialize := by
  cases e <;> simp_all [Event.isPump, Event.isStartup, Event.isWindowConfig]

theorem afterCreate_not_startup (o : Oracle) (fuel : Nat) :
    ∀ e ∈ afterCreate o fuel, e.isStartup = false := by
  intro e he
  unfold afterCreate at he
  cases hc : o.Create
  · simp [hc, scopeExit] at he
    rcases he with rfl | rfl <;> rfl
  · simp only [hc, Bool.not_true, Bool.false_eq_true, if_false] at he
    have hp := messageLoop_isPump o fuel 0
    rcases hm : messageLoop o fuel 0 with ⟨loop, _ | _⟩ <;> rw [hm] at he hp <;>
      simp only [List.mem_append, List.mem_cons, scopeExit] at he
    · rcases he with he | he
      · exact (configureWindow_not_startup o e he).1
      · exact (isPump_not_startup e (hp e he)).1
    · rcases he with (he | he) | rfl | rfl | rfl | he
      · exact (configureWindow_not_startup o e he).1
      · exact (isPump_not_startup e (hp e he)).1
      · rfl
      · rfl
      · rfl
      · simp at he

theorem attachConsole_no_teardown (o : Oracle) : Event.CoUninitialize ∉ attachConsole o := by
  unfold attachConsole
  split_ifs <;> simp

theorem configureWindow_no_teardown (o : Oracle) : Event.CoUninitialize ∉ configureWindow o := by
  unfold configureWindow
  split_ifs <;> simp

theorem messageLoop_no_teardown (o : Oracle) (fuel i : Nat) :
    Event.CoUninitialize ∉ (messageLoop o fuel i).1 := by
  intro h
  have := messageLoop_isPump o fuel i _ h
  simp [Event.isPump] at this

/-! ## C1: failure of window creation -/

/-- C1: in every run in which `window.Create` returns false, `wWinMain`
returns `EXIT_FAILURE` (whatever the fuel, so the run does return), and its
call trace contains no `GetMessage`, `TranslateMessage` or `DispatchMessage`
call and no `SetMinimumSize`, `SetClassLongPtr` or `SetQuitOnClose` call. -/
theorem create_failure_exits_without_pump (o : Oracle) (fuel : Nat) (h : o.Create = false) :
    (wWinMain o fuel).exit = some EXIT_FAILURE ∧
    ∀ e ∈ (wWinMain o fuel).trace, e.isPump = false ∧ e.isWindowConfig = false := by
  rw [wWinMain_create_false o fuel h]
  refine ⟨rfl, ?_⟩
  intro e he
  simp only [List.mem_append] at he
  rcases he with (he | he) | he
  · exact attachConsole_not_pump o e he
  · simp only [startup, List.mem_cons, List.mem_singleton, List.not_mem_nil, or_false] at he
    rcases he with rfl | rfl | rfl | rfl | rfl | rfl | rfl | rfl <;> exact ⟨rfl, rfl⟩
  · simp only [scopeExit, List.mem_cons, List.mem_singleton, List.not_mem_nil, or_false] at he
    rcases he with rfl | rfl <;> exact ⟨rfl, rfl⟩

/-- Witness for C1 on `failingOracle`. -/
theorem create_failure_exits_without_pump_witness :
    failingOracle.Create = false ∧
    ((wWinMain failingOracle 5).exit = some EXIT_FAILURE ∧
      ∀ e ∈ (wWinMain failingOracle 5).trace, e.isPump = false ∧ e.isWindowConfig = false) :=
  ⟨rfl, create_failure_exits_without_pump failingOracle 5 rfl⟩

/-! ## C2: COM teardown on the early return -/

/-- C2, evaluated on the code: when `window.Create` returns false the run
returns `EXIT_FAILURE` through line 33; its trace has the `CoInitializeEx`
call of line 18 and no `CoUninitialize` call, so the teardown the claim
requires on every exit path is missing on this one. -/
theorem early_return_skips_com_teardown (o : Oracle) (fuel : Nat) :
    (wWinMain { o with Create := false } fuel).exit = some EXIT_FAILURE ∧
    (wWinMain { o with Create := false } fuel).trace.count Event.CoUninitialize = 0 ∧
    (wWinMain { o with Create := false } fuel).trace.count
      (Event.CoInitializeEx 0 COINIT_APARTMENTTHREADED) = 1 := by
  rw [wWinMain_create_false _ fuel rfl]
  refine ⟨rfl, ?_, ?_⟩
  · rw [List.count_eq_zero]
    intro hmem
    simp only [List.mem_append] at hmem
    rcases hmem with (he | he) | he
    · exact attachConsole_no_teardown _ he
    · simp [startup] at he
    · simp [scopeExit] at he
  · simp only [List.count_append]
    have h1 : (attachConsole { o with Create := false }).count
        (Event.CoInitializeEx 0 COINIT_APARTMENTTHREADED) = 0 := by
      rw [List.count_eq_zero]
      intro he
      have := attachConsole_not_startup _ _ he
      simp [Event.isStartup] at this
    rw [h1]
    simp [startup, scopeExit, List.count_cons]

/-! ## C3: closing the window -/

/-- C3: in every run in which `window.Create` returns true and some
`GetMessage` call (number `n`) returns 0, `wWinMain` returns: with any fuel
above `n` the exit code is `EXIT_SUCCESS`, and the trace reads
`pre ++ [GetMessage, CoUninitialize] ++ post` where `pre` and `post` hold no
`CoUninitialize` and `post` holds no message-pump call; so `CoUninitialize`
is called exactly once, right after the last `GetMessage` call. -/
theorem window_closed_exits_success (o : Oracle) (n : Nat) (hc : o.Create = true)
    (hz : (o.GetMessage n).1 = 0) :
    ∀ fuel, n < fuel →
      (wWinMain o fuel).exit = some EXIT_SUCCESS ∧
      (wWinMain o fuel).trace.count Event.CoUninitialize = 1 ∧
      ∃ pre post,
        (wWinMain o fuel).trace =
          pre ++ [Event.GetMessage 0 0 0, Event.CoUninitialize] ++ post ∧
        Event.CoUninitialize ∉ pre ∧ Event.CoUninitialize ∉ post ∧
        ∀ e ∈ post, e.isPump = false := by
  intro fuel hf
  have hd : (messageLoop o fuel 0).2 = true :=
    messageLoop_done o n 0 fuel (by simpa using hz) hf
  obtain ⟨l, hl⟩ := messageLoop_done_last o fuel 0 hd
  have hnl : Event.CoUninitialize ∉ l := by
    intro h
    apply messageLoop_no_teardown o fuel 0
    rw [hl]; exact List.mem_append_left _ h
  have hpre : Event.CoUninitialize ∉ attachConsole o ++ startup o ++ configureWindow o ++ l := by
    simp only [List.mem_append, not_or]
    exact ⟨⟨⟨attachConsole_no_teardown o, by simp [startup]⟩, configureWindow_no_teardown o⟩, hnl⟩
  have hpost : Event.CoUninitialize ∉ scopeExit := by simp [scopeExit]
  have htrace : (wWinMain o fuel).trace =
      (attachConsole o ++ startup o ++ configureWindow o ++ l) ++
        [Event.GetMessage 0 0 0, Event.CoUninitialize] ++ scopeExit := by
    rw [wWinMain_loop_done o fuel hc hd, hl]
    simp [List.append_assoc]
  refine ⟨by rw [wWinMain_loop_done o fuel hc hd], ?_, _, _, htrace, hpre, hpost, ?_⟩
  · rw [htrace]
    simp only [List.count_append, List.count_eq_zero.mpr hpre, List.count_eq_zero.mpr hpost]
    simp [List.count_cons]
  · intro e he
    simp only [scopeExit, List.mem_cons, List.mem_singleton, List.not_mem_nil, or_false] at he
    rcases he with rfl | rfl <;> rfl

/-- Witness for C3 on `sampleOracle`, whose third `GetMessage` call returns 0. -/
theorem window_closed_exits_success_witness :
    sampleOracle.Create = true ∧ (sampleOracle.GetMessage 2).1 = 0 ∧
    ((wWinMain sampleOracle 3).exit = some EXIT_SUCCESS ∧
      (wWinMain sampleOracle 3).trace.count Event.CoUninitialize = 1 ∧
      ∃ pre post,
        (wWinMain sampleOracle 3).trace =
          pre ++ [Event.GetMessage 0 0 0, Event.CoUninitialize] ++ post ∧
        Event.CoUninitialize ∉ pre ∧ Event.CoUninitialize ∉ post ∧
        ∀ e ∈ post, e.isPump = false) :=
  ⟨rfl, rfl, window_closed_exits_success sampleOracle 2 rfl rfl 3 (by decide)⟩

/-! ## C9: the message loop -/

/-- C9: let the `GetMessage` results number 0 to `n - 1` be nonzero (any
nonzero value, `-1` included) and result number `n` be 0.  Then the loop,
given fuel above `n`, ends with the trace made of one round
`GetMessage, TranslateMessage m, DispatchMessage m` for each of the first `n`
messages `m`, in order, followed by the final `GetMessage`: it calls
`GetMessage` `n + 1` times and translates and dispatches `n` times.  With
fuel `k ≤ n` it has made exactly `k` rounds and has not left the loop. -/
theorem messageLoop_pumps_until_quit (o : Oracle) (n : Nat)
    (hnz : ∀ i, i < n → (o.GetMessage i).1 ≠ 0) (hz : (o.GetMessage n).1 = 0) :
    (∀ fuel, n < fuel →
      messageLoop o fuel 0 =
        ((List.range n).flatMap (fun i => pumpRound (o.GetMessage i).2) ++
          [Event.GetMessage 0 0 0], true) ∧
      ((messageLoop o fuel 0).1.filter Event.isGetMessage).length = n + 1 ∧
      (messageLoop o fuel 0).1.filter (fun e => !e.isGetMessage) =
        (List.range n).flatMap (fun i =>
          [Event.TranslateMessage (o.GetMessage i).2, Event.DispatchMessage (o.GetMessage i).2])) ∧
    (∀ k, k ≤ n →
      messageLoop o k 0 = ((List.range k).flatMap (fun i => pumpRound (o.GetMessage i).2), false)) := by
  have hfilter1 : ∀ l : List Nat,
      ((l.flatMap (fun i => pumpRound (o.GetMessage i).2)).filter Event.isGetMessage).length
        = l.length := by
    intro l
    induction l with
    | nil => rfl
    | cons a l ih =>
      simp only [List.flatMap_cons, List.filter_append, List.length_append, ih]
      simp [pumpRound, Event.isGetMessage, List.filter_cons]
      omega
  have hfilter2 : ∀ l : List Nat,
      (l.flatMap (fun i => pumpRound (o.GetMessage i).2)).filter (fun e => !e.isGetMessage)
        = l.flatMap (fun i =>
          [Event.TranslateMessage (o.GetMessage i).2, Event.DispatchMessage (o.GetMessage i).2]) := by
    intro l
    induction l with
    | nil => rfl
    | cons a l ih =>
      simp only [List.flatMap_cons, List.filter_append, ih]
      simp [pumpRound, Event.isGetMessage, List.filter_cons]
  refine ⟨?_, ?_⟩
  · intro fuel hf
    have hex := messageLoop_exact o n 0 fuel (by simpa using hnz) (by simpa using hz) hf
    rw [← List.range_eq_range'] at hex
    refine ⟨hex, ?_, ?_⟩
    · rw [hex]
      simp only [List.filter_append, List.length_append, hfilter1, List.length_range]
      simp [Event.isGetMessage, List.filter_cons]
    · rw [hex]
      simp only [List.filter_append, hfilter2]
      simp [Event.isGetMessage, List.filter_cons]
  · intro k hk
    have hrun := messageLoop_running o k 0 (fun j hj => by simpa using hnz j (by omega))
    rw [← List.range_eq_range'] at hrun
    exact hrun

/-- Witness for C9 on `sampleOracle`: results 1, -1, 0, so `n = 2` and the
error value -1 is pumped like a message. -/
theorem messageLoop_pumps_until_quit_witness :
    (sampleOracle.GetMessage 1).1 = -1 ∧
    messageLoop sampleOracle 3 0 =
      ([Event.GetMessage 0 0 0, Event.TranslateMessage paintMsg, Event.DispatchMessage paintMsg,
        Event.GetMessage 0 0 0, Event.TranslateMessage paintMsg, Event.DispatchMessage paintMsg,
        Event.GetMessage 0 0 0], true) :=
  ⟨rfl, ((messageLoop_pumps_until_quit sampleOracle 2
    (fun i hi => by
      have : i = 0 ∨ i = 1 := by omega
      rcases this with rfl | rfl <;> decide)
    rfl).1 3 (by decide)).1⟩

/-! ## C4 and C10: the window origin -/

theorem wrapInt32_of_range (z : Int) (h1 : INT_MIN ≤ z) (h2 : z ≤ INT_MAX) : wrapInt32 z = z := by
  unfold INT_MIN at h1
  unfold INT_MAX at h2
  unfold wrapInt32
  omega

theorem tdiv_two (d : Int) : Int.tdiv d 2 = if 0 ≤ d then d / 2 else -((-d) / 2) := by
  split
  · rename_i h; exact Int.tdiv_eq_ediv h (by decide)
  · rename_i h
    have hd : d = -(-d) := by omega
    rw [hd, Int.neg_tdiv, Int.tdiv_eq_ediv (by omega) (by decide)]
    simp

theorem startup_create (o : Oracle) :
    (startup o).filter Event.isCreate =
      [Event.Create windowTitle
        (windowOrigin (o.GetSystemMetrics SM_CXSCREEN) (o.GetSystemMetrics SM_CYSCREEN))
        windowSize] := by
  simp [startup, Event.isCreate, List.filter_cons]

theorem filter_eq_nil_of_all_false {p q : Event → Bool} (l : List Event)
    (hq : ∀ e, p e = true → q e = true) (h : ∀ e ∈ l, q e = false) : l.filter p = [] := by
  rw [List.filter_eq_nil_iff]
  intro e he hp
  have := hq e hp
  rw [h e he] at this
  exact Bool.false_ne_true this

theorem isCreate_isStartup (e : Event) (h : e.isCreate = true) : e.isStartup = true := by
  cases e <;> simp_all [Event.isCreate, Event.isStartup]

theorem wWinMain_create_calls (o : Oracle) (fuel : Nat) :
    (wWinMain o fuel).trace.filter Event.isCreate =
      [Event.Create windowTitle
        (windowOrigin (o.GetSystemMetrics SM_CXSCREEN) (o.GetSystemMetrics SM_CYSCREEN))
        windowSize] := by
  rw [wWinMain_trace, List.filter_append, List.filter_append, startup_create,
    filter_eq_nil_of_all_false _ isCreate_isStartup (attachConsole_not_startup o),
    filter_eq_nil_of_all_false _ isCreate_isStartup (afterCreate_not_startup o fuel)]
  rfl

/-- C4: let `W` and `H` be the `int` values returned by
`GetSystemMetrics(SM_CXSCREEN)` and `GetSystemMetrics(SM_CYSCREEN)`, with
`W - 1280` and `H - 720` representable as `int`.  Then the only
`window.Create` call of the run has origin arguments `x = (W - 1280) / 2` and
`y = (H - 720) / 2` under truncating division (`Int.tdiv`), and size
arguments exactly `(1280, 720)`; this covers displays smaller than the
window, where the numerators are negative. -/
theorem create_origin_and_size (o : Oracle) (fuel : Nat)
    (hW : INT_MIN + 1280 ≤ o.GetSystemMetrics SM_CXSCREEN ∧ o.GetSystemMetrics SM_CXSCREEN ≤ INT_MAX)
    (hH : INT_MIN + 720 ≤ o.GetSystemMetrics SM_CYSCREEN ∧ o.GetSystemMetrics SM_CYSCREEN ≤ INT_MAX) :
    (wWinMain o fuel).trace.filter Event.isCreate =
      [Event.Create windowTitle
        { x := Int.tdiv (o.GetSystemMetrics SM_CXSCREEN - 1280) 2,
          y := Int.tdiv (o.GetSystemMetrics SM_CYSCREEN - 720) 2 }
        { width := 1280, height := 720 }] := by
  rw [wWinMain_create_calls]
  unfold windowOrigin windowSize
  rw [wrapInt32_of_range _ (by omega) (by unfold INT_MAX at *; omega),
    wrapInt32_of_range _ (by omega) (by unfold INT_MAX at *; omega)]

/-- Witness for C4 on `failingOracle`, an 801x601 display: the origin is
`(-239, -59)`, the quotients truncated toward zero. -/
theorem create_origin_and_size_witness :
    (wWinMain failingOracle 0).trace.filter Event.isCreate =
      [Event.Create windowTitle { x := -239, y := -59 } { width := 1280, height := 720 }] :=
  create_origin_and_size failingOracle 0 (by decide) (by decide)

/-- C10: for a display of size `(W, H)` with `W - 1280` and `H - 720`
representable as `int`, the origin `(x, y)` computed by lines 28-30 centres
the window: the left and right margins `x` and `W - (x + 1280)` differ by at
most 1 in absolute value, as do the top and bottom margins `y` and
`H - (y + 720)`, and each pair is equal exactly when `W - 1280`
(respectively `H - 720`) is even. -/
theorem windowOrigin_centred (W H : Int)
    (hW : INT_MIN + 1280 ≤ W ∧ W ≤ INT_MAX) (hH : INT_MIN + 720 ≤ H ∧ H ≤ INT_MAX) :
    |(windowOrigin W H).x - (W - ((windowOrigin W H).x + 1280))| ≤ 1 ∧
    |(windowOrigin W H).y - (H - ((windowOrigin W H).y + 720))| ≤ 1 ∧
    ((windowOrigin W H).x = W - ((windowOrigin W H).x + 1280) ↔ (W - 1280) % 2 = 0) ∧
    ((windowOrigin W H).y = H - ((windowOrigin W H).y + 720) ↔ (H - 720) % 2 = 0) := by
  unfold windowOrigin
  simp only
  rw [wrapInt32_of_range _ (by omega) (by unfold INT_MAX at *; omega),
    wrapInt32_of_range _ (by omega) (by unfold INT_MAX at *; omega), tdiv_two, tdiv_two]
  refine ⟨?_, ?_, ?_, ?_⟩
  · rw [abs_le]; split <;> constructor <;> omega
  · rw [abs_le]; split <;> constructor <;> omega
  · split <;> constructor <;> intro h <;> omega
  · split <;> constructor <;> intro h <;> omega

/-- Witness for C10 on an 801x601 display: margins `-239` and `-240`
horizontally, `-59` and `-60` vertically, both numerators odd. -/
theorem windowOrigin_centred_witness :
    (windowOrigin 801 601).x = -239 ∧ 801 - ((windowOrigin 801 601).x + 1280) = -240 ∧
    (|(windowOrigin 801 601).x - (801 - ((windowOrigin 801 601).x + 1280))| ≤ 1 ∧
    |(windowOrigin 801 601).y - (601 - ((windowOrigin 801 601).y + 720))| ≤ 1 ∧
    ((windowOrigin 801 601).x = 801 - ((windowOrigin 801 601).x + 1280) ↔ (801 - 1280 : Int) % 2 = 0) ∧
    ((windowOrigin 801 601).y = 601 - ((windowOrigin 801 601).y + 720) ↔ (601 - 720 : Int) % 2 = 0)) :=
  ⟨by decide, by decide, windowOrigin_centred 801 601 (by decide) (by decide)⟩

/-! ## C5: hand-off of the command-line arguments -/

theorem entrypointArgs_isStartup (e : Event) (h : e.isStartup = false) :
    e.entrypointArgs = none := by
  cases e <;> simp_all [Event.entrypointArgs, Event.isStartup]

theorem filterMap_entrypointArgs_nil (l : List Event) (h : ∀ e ∈ l, e.isStartup = false) :
    l.filterMap Event.entrypointArgs = [] := by
  rw [List.filterMap_eq_nil_iff]
  intro e he
  exact entrypointArgs_isStartup e (h e he)

/-- C5: in every run the token sequences handed to
`project.set_dart_entrypoint_arguments` are exactly one sequence, the one
`GetCommandLineArguments` returned (equal as a list: same length, order and
text), and that call stands in the trace after the `GetCommandLineArguments`
call and before the construction of the `FlutterWindow`. -/
theorem arguments_forwarded_unchanged (o : Oracle) (fuel : Nat) :
    (wWinMain o fuel).trace.filterMap Event.entrypointArgs = [o.GetCommandLineArguments] ∧
    ∃ pre post,
      (wWinMain o fuel).trace =
        pre ++ Event.set_dart_entrypoint_arguments o.GetCommandLineArguments :: post ∧
      Event.GetCommandLineArguments ∈ pre ∧ Event.FlutterWindow ∉ pre ∧
      Event.FlutterWindow ∈ post := by
  constructor
  · rw [wWinMain_trace, List.filterMap_append, List.filterMap_append,
      filterMap_entrypointArgs_nil _ (attachConsole_not_startup o),
      filterMap_entrypointArgs_nil _ (afterCreate_not_startup o fuel)]
    simp [startup, Event.entrypointArgs, List.filterMap_cons]
  · refine ⟨attachConsole o ++ [Event.CoInitializeEx 0 COINIT_APARTMENTTHREADED,
      Event.DartProject "data", Event.GetCommandLineArguments],
      [Event.FlutterWindow, Event.GetSystemMetrics SM_CXSCREEN, Event.GetSystemMetrics SM_CYSCREEN,
        Event.Create windowTitle
          (windowOrigin (o.GetSystemMetrics SM_CXSCREEN) (o.GetSystemMetrics SM_CYSCREEN))
          windowSize] ++ afterCreate o fuel, ?_, ?_, ?_, ?_⟩
    · rw [wWinMain_trace]; simp [startup]
    · simp
    · intro h
      simp only [List.mem_append, List.mem_cons, List.mem_singleton, List.not_mem_nil, or_false,
        reduceCtorEq, or_self] at h
      have := attachConsole_not_startup o _ h
      simp [Event.isStartup] at this
    · simp

/-! ## C8: COM initialisation -/

theorem isComInit_isStartup (e : Event) (h : e.isComInit = true) : e.isStartup = true := by
  cases e <;> simp_all [Event.isComInit, Event.isStartup]

/-- C8: in every run `CoInitializeEx` is called exactly once, with arguments
`(nullptr, COINIT_APARTMENTTHREADED)`, and everything before that call in
the trace is neither the construction of the `FlutterWindow` nor a
`window.Create` call, while both of these come after it. -/
theorem com_initialised_once_before_window (o : Oracle) (fuel : Nat) :
    (wWinMain o fuel).trace.filter Event.isComInit =
      [Event.CoInitializeEx 0 COINIT_APARTMENTTHREADED] ∧
    ∃ pre post,
      (wWinMain o fuel).trace =
        pre ++ Event.CoInitializeEx 0 COINIT_APARTMENTTHREADED :: post ∧
      (∀ e ∈ pre, e ≠ Event.FlutterWindow ∧ e.isCreate = false) ∧
      Event.FlutterWindow ∈ post ∧ (∃ e ∈ post, e.isCreate = true) := by
  constructor
  · rw [wWinMain_trace, List.filter_append, List.filter_append,
      filter_eq_nil_of_all_false _ isComInit_isStartup (attachConsole_not_startup o),
      filter_eq_nil_of_all_false _ isComInit_isStartup (afterCreate_not_startup o fuel)]
    simp [startup, Event.isComInit, List.filter_cons]
  · refine ⟨attachConsole o, (startup o).tail ++ afterCreate o fuel, ?_, ?_, ?_, ?_⟩
    · rw [wWinMain_trace]; simp [startup]
    · intro e he
      have hs := attachConsole_not_startup o e he
      constructor
      · rintro rfl; simp [Event.isStartup] at hs
      · cases e <;> simp_all [Event.isCreate, Event.isStartup]
    · simp [startup]
    · exact ⟨Event.Create windowTitle
        (windowOrigin (o.GetSystemMetrics SM_CXSCREEN) (o.GetSystemMetrics SM_CYSCREEN))
        windowSize, by simp [startup], rfl⟩

/-! ## C7: configuration of the created window -/

theorem messageLoop_head (o : Oracle) (fuel i : Nat) :
    (messageLoop o fuel i).1 = [] ∨ ∃ r, (messageLoop o fuel i).1 = Event.GetMessage 0 0 0 :: r := by
  cases fuel with
  | zero => left; rfl
  | succ f =>
    right
    unfold messageLoop
    split
    · exact ⟨_, rfl⟩
    · exact ⟨_, rfl⟩

theorem afterCreate_true (o : Oracle) (fuel : Nat) (hc : o.Create = true) :
    ∃ L, afterCreate o fuel = configureWindow o ++ L ∧
      (L = [] ∨ ∃ r, L = Event.GetMessage 0 0 0 :: r) ∧
      ∀ e ∈ L, e.isWindowConfig = false := by
  unfold afterCreate
  simp only [hc, Bool.not_true, Bool.false_eq_true, if_false]
  have hp := messageLoop_isPump o fuel 0
  have hh := messageLoop_head o fuel 0
  have hl := messageLoop_done_last o fuel 0
  rcases hm : messageLoop o fuel 0 with ⟨loop, _ | _⟩ <;> rw [hm] at hp hh hl <;> simp only at hp hh hl
  · exact ⟨loop, by simp, hh, fun e he => (isPump_not_startup e (hp e he)).2.1⟩
  · refine ⟨loop ++ ( Event.CoUninitialize :: scopeExit), by simp, ?_, ?_⟩
    · right
      rcases hh with h | ⟨r, h⟩
      · obtain ⟨l, hl⟩ := hl trivial
        rw [h] at hl
        cases l <;> simp at hl
      · exact ⟨r ++ ( Event.CoUninitialize :: scopeExit), by simp [h]⟩
    · intro e he
      simp only [List.mem_append, List.mem_cons, scopeExit, List.not_mem_nil, or_false] at he
      rcases he with he | rfl | rfl | rfl
      · exact (isPump_not_startup e (hp e he)).2.1
      · rfl
      · rfl
      · rfl

theorem configureWindow_config (o : Oracle) :
    (configureWindow o).filter Event.isWindowConfig = expectedConfig o.GetHandle o.LoadImage := by
  unfold configureWindow expectedConfig
  split_ifs <;> simp [Event.isWindowConfig, List.filter_cons]

theorem configureWindow_no_GetMessage (o : Oracle) :
    ∀ e ∈ configureWindow o, (!e.isGetMessage) = true := by
  unfold configureWindow
  split_ifs <;> simp [Event.isGetMessage]

theorem startup_no_GetMessage (o : Oracle) :
    ∀ e ∈ startup o, (!e.isGetMessage) = true ∧ e.isWindowConfig = false := by
  simp [startup, Event.isGetMessage, Event.isWindowConfig]

theorem attachConsole_no_GetMessage (o : Oracle) :
    ∀ e ∈ attachConsole o, (!e.isGetMessage) = true := by
  unfold attachConsole
  split_ifs <;> simp [Event.isGetMessage]

/-- C7: in every run in which `window.Create` returns true, the part of the
trace before the first `GetMessage` call reads `pre ++ Create(..) :: post`
where `pre` holds no window-configuration call and the window-configuration
calls of `post` are, in order: `SetMinimumSize(800, 500)`; then
`SetClassLongPtr(hwnd, GCLP_HICON, icon)` if and only if `LoadImage` returned
a non-null `icon`; then `SetQuitOnClose(true)`.  These are also all the
window-configuration calls of the whole run, so each is made exactly once. -/
theorem window_configured_before_pump (o : Oracle) (fuel : Nat) (hc : o.Create = true) :
    (∃ pre post,
      (wWinMain o fuel).trace.takeWhile (fun e => !e.isGetMessage) =
        pre ++ Event.Create windowTitle
          (windowOrigin (o.GetSystemMetrics SM_CXSCREEN) (o.GetSystemMetrics SM_CYSCREEN))
          windowSize :: post ∧
      (∀ e ∈ pre, e.isWindowConfig = false ∧ e.isCreate = false) ∧
      post.filter Event.isWindowConfig = expectedConfig o.GetHandle o.LoadImage) ∧
    (wWinMain o fuel).trace.filter Event.isWindowConfig = expectedConfig o.GetHandle o.LoadImage ∧
    ((∃ h i v, Event.SetClassLongPtr h i v ∈ (wWinMain o fuel).trace) ↔ o.LoadImage ≠ 0) := by
  obtain ⟨L, hL, hhead, hcfg⟩ := afterCreate_true o fuel hc
  have htr : (wWinMain o fuel).trace = (attachConsole o ++ startup o ++ configureWindow o) ++ L := by
    rw [wWinMain_trace, hL]; simp [List.append_assoc]
  have hfilter : (wWinMain o fuel).trace.filter Event.isWindowConfig =
      expectedConfig o.GetHandle o.LoadImage := by
    rw [htr]
    simp only [List.filter_append, configureWindow_config]
    rw [List.filter_eq_nil_iff.mpr (fun e he => by simp [(attachConsole_not_pump o e he).2]),
      List.filter_eq_nil_iff.mpr (fun e he => by simp [(startup_no_GetMessage o e he).2]),
      List.filter_eq_nil_iff.mpr (fun e he => by simp [hcfg e he])]
    simp
  refine ⟨⟨attachConsole o ++ (startup o).dropLast, configureWindow o, ?_, ?_,
    configureWindow_config o⟩, hfilter, ?_⟩
  · rw [htr, List.takeWhile_append_of_pos]
    · have hL0 : L.takeWhile (fun e => !e.isGetMessage) = [] := by
        rcases hhead with rfl | ⟨r, rfl⟩
        · rfl
        · simp [List.takeWhile_cons, Event.isGetMessage]
      rw [hL0]
      simp [startup]
    · intro e he
      simp only [List.mem_append] at he
      rcases he with (he | he) | he
      · exact attachConsole_no_GetMessage o e he
      · exact (startup_no_GetMessage o e he).1
      · exact configureWindow_no_GetMessage o e he
  · intro e he
    simp only [List.mem_append] at he
    rcases he with he | he
    · refine ⟨(attachConsole_not_pump o e he).2, ?_⟩
      have := attachConsole_not_startup o e he
      cases e <;> simp_all [Event.isCreate, Event.isStartup]
    · simp [startup] at he
      rcases he with rfl | rfl | rfl | rfl | rfl | rfl | rfl <;> exact ⟨rfl, rfl⟩
  · constructor
    · rintro ⟨h, i, v, hmem⟩
      have hmem2 : Event.SetClassLongPtr h i v ∈
          (wWinMain o fuel).trace.filter Event.isWindowConfig :=
        List.mem_filter.mpr ⟨hmem, rfl⟩
      rw [hfilter] at hmem2
      intro hz
      simp [expectedConfig, hz] at hmem2
    · intro hnz
      refine ⟨o.GetHandle, GCLP_HICON, o.LoadImage, ?_⟩
      have hmem2 : Event.SetClassLongPtr o.GetHandle GCLP_HICON o.LoadImage ∈
          (wWinMain o fuel).trace.filter Event.isWindowConfig := by
        rw [hfilter]; simp [expectedConfig, hnz]
      exact (List.mem_filter.mp hmem2).1

/-- Witness for C7 on `iconOracle` (icon handle 77, window handle 12): the
window-configuration calls of the run are `SetMinimumSize(800, 500)`,
`SetClassLongPtr(12, GCLP_HICON, 77)`, `SetQuitOnClose(true)`. -/
theorem window_configured_before_pump_witness :
    iconOracle.Create = true ∧
    (wWinMain iconOracle 3).trace.filter Event.isWindowConfig =
      [Event.SetMinimumSize 800 500, Event.SetClassLongPtr 12 (-14) 77,
        Event.SetQuitOnClose true] :=
  ⟨rfl, (window_configured_before_pump iconOracle 3 rfl).2.1⟩

/-! ## C6: console, debugger and icon answers do not influence the outcome -/

theorem messageLoop_congr (o₁ o₂ : Oracle) (hM : ∀ i, o₁.GetMessage i = o₂.GetMessage i)
    (fuel : Nat) : ∀ i, messageLoop o₁ fuel i = messageLoop o₂ fuel i := by
  induction fuel with
  | zero => intro i; rfl
  | succ f ih =>
    intro i
    unfold messageLoop
    rw [hM i, ih (i + 1)]

theorem attachConsole_essential (o : Oracle) :
    (attachConsole o).filter Event.isEssential = [] := by
  unfold attachConsole
  split_ifs <;> simp [Event.isEssential, List.filter_cons]

theorem configureWindow_essential (o : Oracle) :
    (configureWindow o).filter Event.isEssential =
      [Event.SetMinimumSize 800 500, Event.SetQuitOnClose true] := by
  unfold configureWindow
  split_ifs <;> simp [Event.isEssential, List.filter_cons]

theorem startup_essential (o : Oracle) :
    (startup o).filter Event.isEssential =
      [Event.CoInitializeEx 0 COINIT_APARTMENTTHREADED,
        Event.Create windowTitle
          (windowOrigin (o.GetSystemMetrics SM_CXSCREEN) (o.GetSystemMetrics SM_CYSCREEN))
          windowSize] := by
  simp [startup, Event.isEssential, List.filter_cons]

theorem afterCreate_essential (o : Oracle) (fuel : Nat) :
    (afterCreate o fuel).filter Event.isEssential =
      if !o.Create then []
      else [Event.SetMinimumSize 800 500, Event.SetQuitOnClose true] ++
        (messageLoop o fuel 0).1.filter Event.isEssential ++
        (if (messageLoop o fuel 0).2 then [ Event.CoUninitialize] else []) := by
  unfold afterCreate
  cases o.Create
  · simp [scopeExit, Event.isEssential, List.filter_cons]
  · simp only [Bool.not_true, Bool.false_eq_true, if_false]
    rcases messageLoop o fuel 0 with ⟨loop, _ | _⟩ <;>
      simp [List.filter_append, configureWindow_essential, scopeExit, Event.isEssential,
        List.filter_cons]

theorem wWinMain_exit (o : Oracle) (fuel : Nat) :
    (wWinMain o fuel).exit =
      if !o.Create then some EXIT_FAILURE
      else if (messageLoop o fuel 0).2 then some EXIT_SUCCESS else none := by
  unfold wWinMain
  cases o.Create
  · simp
  · simp only [Bool.not_true, Bool.false_eq_true, if_false]
    rcases messageLoop o fuel 0 with ⟨loop, _ | _⟩ <;> simp

/-- C6: take two runs whose environments agree on the result of
`window.Create`, on every `GetMessage` result and on the display size, and
are otherwise arbitrary, in particular in the answers of `AttachConsole`,
`IsDebuggerPresent` and `LoadImage`.  With the same fuel the two runs have
the same exit code (or are both still in the loop) and the same sub-trace
of `window.Create`, `SetMinimumSize`, `SetQuitOnClose`, message-pump and COM
calls.  Moreover a run in which window creation succeeds and `LoadImage`
returns null never returns a non-zero exit code. -/
theorem nonfatal_answers_do_not_matter (o₁ o₂ : Oracle) (fuel : Nat)
    (hC : o₁.Create = o₂.Create) (hM : ∀ i, o₁.GetMessage i = o₂.GetMessage i)
    (hX : o₁.GetSystemMetrics SM_CXSCREEN = o₂.GetSystemMetrics SM_CXSCREEN)
    (hY : o₁.GetSystemMetrics SM_CYSCREEN = o₂.GetSystemMetrics SM_CYSCREEN) :
    (wWinMain o₁ fuel).exit = (wWinMain o₂ fuel).exit ∧
    (wWinMain o₁ fuel).trace.filter Event.isEssential =
      (wWinMain o₂ fuel).trace.filter Event.isEssential ∧
    (o₁.Create = true → o₁.LoadImage = 0 →
      ∀ c, (wWinMain o₁ fuel).exit = some c → c = 0) := by
  have hloop := messageLoop_congr o₁ o₂ hM fuel 0
  refine ⟨?_, ?_, ?_⟩
  · rw [wWinMain_exit, wWinMain_exit, hC, hloop]
  · rw [wWinMain_trace, wWinMain_trace]
    simp only [List.filter_append, attachConsole_essential, startup_essential,
      afterCreate_essential, hC, hloop, hX, hY]
  · intro hc _ c hex
    rw [wWinMain_exit, hc] at hex
    simp only [Bool.not_true, Bool.false_eq_true, if_false] at hex
    split at hex
    · simp only [Option.some.injEq] at hex
      rw [← hex]; rfl
    · simp at hex

/-- Witness for C6 on `sampleOracle` (no console, no debugger, missing
icon) and `iconOracle` (console, debugger, icon 77): same exit code and same
sub-trace, and the run with the missing icon returns `EXIT_SUCCESS`. -/
theorem nonfatal_answers_do_not_matter_witness :
    sampleOracle.LoadImage = 0 ∧ iconOracle.LoadImage = 77 ∧
    (wWinMain sampleOracle 4).exit = some 0 ∧
    ((wWinMain sampleOracle 4).exit = (wWinMain iconOracle 4).exit ∧
    (wWinMain sampleOracle 4).trace.filter Event.isEssential =
      (wWinMain iconOracle 4).trace.filter Event.isEssential ∧
    (sampleOracle.Create = true → sampleOracle.LoadImage = 0 →
      ∀ c, (wWinMain sampleOracle 4).exit = some c → c = 0)) :=
  ⟨rfl, rfl, by decide,
    nonfatal_answers_do_not_matter sampleOracle iconOracle 4 rfl (fun _ => rfl) rfl rfl⟩

end Runner
